import Mathlib

/-!
Shallow embedding of `main.go` from the `golang-bitbucket-stale-branch`
repository.

Modelling conventions:
- Go `time.Duration` is an `int64` count of nanoseconds; we model durations
  and instants as `Int` nanoseconds.
- Go computes `Hours()` in `float64`; we model that arithmetic with exact
  fractions (`FloatQ`: an integer numerator over a positive integer
  denominator, kept unreduced so that every operation is kernel-computable).
  The quotients, comparisons and divisions involved are modelled at their
  exact real value.  This exact-value model deliberately does not capture
  IEEE-754 rounding: `Duration.Hours()` rounds twice and the `/ 24` rounds
  once more, so a commit age within a sub-half-ulp of the threshold's day
  count (for instance one nanosecond over a 200-day threshold) compares
  equal in `float64` but strictly greater here.  Properties decided by that
  rounding (staleness exactly at the threshold boundary) are therefore
  outside this embedding; no theorem below relies on the comparison at such
  boundary inputs, and every concrete input evaluated below is exactly
  representable, where `float64` and the exact value agree.  Go's
  `time.Duration(f)` conversion of a `float64` truncates toward zero;
  `FloatQ.trunc` models that.
- The HTTP transport (resty) and the Bitbucket API are external: they are
  modelled as an oracle (`Env`) mapping each of the three calls the program
  makes to either a transport error or a response (status code, status text,
  decoded JSON body). Each embedded operation also returns the list of HTTP
  requests it issued and the list of console lines it printed, so that
  "no network call is made" and "a notice is printed" are statable.
- `time.Parse(time.RFC3339, ...)` is external library code; it is abstracted
  as a parameter `parse : String → Option Int` (RFC3339 string to Unix
  nanoseconds, `none` on parse failure), and `time.Since` as the parameter
  `now`.
-/

/-- An HTTP request issued by the program: method and full URL. -/
structure HttpRequest where
  method : String
  url : String
deriving DecidableEq, Repr

/-- Outcome of one HTTP call: a transport-level error (the Go `err != nil`
branch), or a response carrying the status code, the status text
(`resp.Status()`) and the decoded body (`SetResult`). -/
inductive ApiResult (α : Type) where
  | transportError (msg : String)
  | response (status : Nat) (statusText : String) (body : α)
deriving Repr

/-- A repository record, as consumed by the program (`repo["slug"].(string)`). -/
structure Repo where
  slug : String
deriving DecidableEq, Repr

/-- A branch record, as consumed by the program: `branch["name"]` and the raw
date string `branch["target"].(map[string]interface{})["date"].(string)`. -/
structure Branch where
  name : String
  targetDate : String
deriving DecidableEq, Repr

/-- `BitbucketClient` from `main.go` (the resty client itself is part of the
external transport oracle). -/
structure BitbucketClient where
  BaseURL : String
  AuthToken : String
  Workspace : String
deriving DecidableEq, Repr

/-- `NewBitbucketClient` from `main.go`. -/
def NewBitbucketClient (workspace authToken : String) : BitbucketClient :=
  { BaseURL := "https://api.bitbucket.org/2.0"
    AuthToken := authToken
    Workspace := workspace }

/-- The external world: what each of the three API calls would return, the
RFC3339 parser, and the current instant (Unix nanoseconds). -/
structure Env where
  reposResult : ApiResult (List Repo)
  branchesResult : String → ApiResult (List Branch)
  deleteResult : String → String → ApiResult Unit
  parse : String → Option Int
  now : Int

/-- Nanoseconds per hour (`time.Hour` as an `int64` nanosecond count). -/
def nanosPerHour : Int := 3600000000000

/-- The exact value of a `float64` expression: an integer numerator over a
(positive) integer denominator, kept unreduced so that all operations below
reduce in the kernel. -/
structure FloatQ where
  num : Int
  den : Int
deriving DecidableEq, Repr

/-- Go's `Duration.Hours()`: the duration divided by `time.Hour`. -/
def hoursOf (d : Int) : FloatQ := ⟨d, nanosPerHour⟩

/-- Division of a float value by an integer constant (`... / 24`). -/
def FloatQ.divInt (q : FloatQ) (n : Int) : FloatQ := ⟨q.num, q.den * n⟩

/-- Exact strict `>` on float values (cross multiplication; both denominators
of every value built here are positive). -/
def FloatQ.isGt (a b : FloatQ) : Bool := b.num * a.den < a.num * b.den

/-- Go's `time.Duration(f)` conversion from `float64`: truncation toward
zero. -/
def FloatQ.trunc (q : FloatQ) : Int := Int.tdiv q.num q.den

/-- Go's `%.0f` formatting: round to the nearest integer, ties to even. -/
def FloatQ.round0 (q : FloatQ) : Int :=
  let f := Int.fdiv q.num q.den
  let r := q.num - f * q.den
  if 2 * r < q.den then f
  else if q.den < 2 * r then f + 1
  else if f % 2 = 0 then f
  else f + 1

/-- `CheckIfStale` from `main.go`: returns `(isStale, nonInteractDays)` where
the second component is a duration in nanoseconds.  Mirrors the source line
by line: on parse failure `(false, 0)`; otherwise compares
`daysSinceCommit > threshold.Hours()/24` and, when stale, returns
`time.Duration(daysSinceCommit) * time.Hour`. -/
def CheckIfStale (parse : String → Option Int) (now : Int) (branch : Branch)
    (threshold : Int) : Bool × Int :=
  match parse branch.targetDate with
  | none => (false, 0)
  | some commitDate =>
    let daysSinceCommit : FloatQ := (hoursOf (now - commitDate)).divInt 24
    if (daysSinceCommit.isGt ((hoursOf threshold).divInt 24)) then
      (true, daysSinceCommit.trunc * nanosPerHour)
    else
      (false, 0)

/-- URL of the repositories collection endpoint
(`%s/repositories/%s` with BaseURL and Workspace). -/
def reposUrl (b : BitbucketClient) : String :=
  b.BaseURL ++ "/repositories/" ++ b.Workspace

/-- URL of the branches-under-repo endpoint
(`%s/repositories/%s/%s/refs/branches`). -/
def branchesUrl (b : BitbucketClient) (repoSlug : String) : String :=
  b.BaseURL ++ "/repositories/" ++ b.Workspace ++ "/" ++ repoSlug ++ "/refs/branches"

/-- URL of one branch's resource
(`%s/repositories/%s/%s/refs/branches/%s`). -/
def branchUrl (b : BitbucketClient) (repoSlug branchName : String) : String :=
  branchesUrl b repoSlug ++ "/" ++ branchName

/-- `FetchRepositories` from `main.go`: one GET to the repositories endpoint;
transport error is returned as-is, a non-200 status becomes the
`failed to fetch repositories` error, a 200 yields the decoded body.
Second component: the HTTP requests issued (always exactly this one GET). -/
def FetchRepositories (env : Env) (b : BitbucketClient) :
    Except String (List Repo) × List HttpRequest :=
  (match env.reposResult with
   | .transportError e => .error e
   | .response status statusText body =>
     if status ≠ 200 then .error ("failed to fetch repositories: " ++ statusText)
     else .ok body,
   [⟨"GET", reposUrl b⟩])

/-- `FetchBranches` from `main.go`: same shape as `FetchRepositories`, scoped
to one repository. -/
def FetchBranches (env : Env) (b : BitbucketClient) (repoSlug : String) :
    Except String (List Branch) × List HttpRequest :=
  (match env.branchesResult repoSlug with
   | .transportError e => .error e
   | .response status statusText body =>
     if status ≠ 200 then
       .error ("failed to fetch branches for repo " ++ repoSlug ++ ": " ++ statusText)
     else .ok body,
   [⟨"GET", branchesUrl b repoSlug⟩])

/-- The hard-coded `protectedBranches` list from `DeleteBranch`. -/
def protectedBranches : List String := ["main", "master", "develop"]

/-- The protected-branch check inside `DeleteBranch`: the `for` loop comparing
`branchName == protectedBranch` over `protectedBranches`. -/
def isProtectedCheck (branchName : String) : Bool :=
  protectedBranches.any (fun p => branchName == p)

/-- `DeleteBranch` from `main.go`.  Returns `(error-or-ok, requests issued,
console lines printed)`.  A protected name short-circuits with a printed
notice, `nil` error and no HTTP call; otherwise one DELETE is issued and the
result succeeds exactly on status 204. -/
def DeleteBranch (env : Env) (b : BitbucketClient) (repoSlug branchName : String) :
    Except String Unit × List HttpRequest × List String :=
  if isProtectedCheck branchName then
    (.ok (), [], ["Branch " ++ branchName ++ " is protected and cannot be deleted."])
  else
    match env.deleteResult repoSlug branchName with
    | .transportError e => (.error e, [⟨"DELETE", branchUrl b repoSlug branchName⟩], [])
    | .response status statusText _ =>
      if status ≠ 204 then
        (.error ("failed to delete branch " ++ branchName ++ ": " ++ statusText),
         [⟨"DELETE", branchUrl b repoSlug branchName⟩], [])
      else
        (.ok (), [⟨"DELETE", branchUrl b repoSlug branchName⟩],
         ["Branch " ++ branchName ++ " deleted in repository " ++ repoSlug])

/-- The inner `for _, branch := range branches` loop of `ListStaleBranches`:
console lines only (it issues no HTTP request — the `DeleteBranch` call in the
source is commented out and replaced by the placeholder print `Blaaa`).
The displayed day count is `nonInteractDays.Hours()/24` under `%.0f`. -/
def processBranches (env : Env) (repoSlug : String) (threshold : Int)
    (del : Bool) : List Branch → List String
  | [] => []
  | branch :: rest =>
    let r := CheckIfStale env.parse env.now branch threshold
    (if r.1 then
      ("Stale branch found: " ++ branch.name ++ " in repo " ++ repoSlug ++
        ", non-interacted for approximate " ++
        toString (((hoursOf r.2).divInt 24).round0) ++
        " days") :: (if del then ["Blaaa"] else [])
     else []) ++ processBranches env repoSlug threshold del rest

/-- The outer `for _, repo := range repos` loop of `ListStaleBranches`:
prints the per-repository header, fetches the branches, on failure logs the
error and `continue`s, on success runs the per-branch loop. -/
def processRepos (env : Env) (b : BitbucketClient) (threshold : Int)
    (del : Bool) : List Repo → List HttpRequest × List String
  | [] => ([], [])
  | repo :: rest =>
    let fr := FetchBranches env b repo.slug
    let tail := processRepos env b threshold del rest
    (fr.2 ++ tail.1,
     ("Checking branches for repository: " ++ repo.slug) ::
       (match fr.1 with
        | .error e =>
          ("Error fetching branches for repo " ++ repo.slug ++ ": " ++ e) :: tail.2
        | .ok branches =>
          processBranches env repo.slug threshold del branches ++ tail.2))

/-- `ListStaleBranches` from `main.go`: fetch the repositories; on failure
print the error and return; otherwise walk every repository.  Returns
`(requests issued, console lines printed)`. -/
def ListStaleBranches (env : Env) (b : BitbucketClient) (threshold : Int)
    (del : Bool) : List HttpRequest × List String :=
  match (FetchRepositories env b).1 with
  | .error e => ((FetchRepositories env b).2, ["Error fetching repositories: " ++ e])
  | .ok repos =>
    let pr := processRepos env b threshold del repos
    ((FetchRepositories env b).2 ++ pr.1, pr.2)

/-- A concrete client (workspace `acme`), as `NewBitbucketClient` builds it. -/
def sampleClient : BitbucketClient := NewBitbucketClient "acme" "token123"

/-- A concrete RFC3339 parser for evaluation: it recognises exactly one
timestamp string, mapped to Unix instant 0, and fails on everything else. -/
def sampleParse (s : String) : Option Int :=
  if s = "2024-01-01T00:00:00Z" then some 0 else none

/-- A branch whose commit timestamp parses (to instant 0). -/
def sampleBranch : Branch := { name := "feature-x", targetDate := "2024-01-01T00:00:00Z" }

/-- A branch whose commit timestamp fails to parse. -/
def malformedBranch : Branch := { name := "weird", targetDate := "not-a-timestamp" }

/-- 90 days in nanoseconds (the hard-coded `3 * 30 * 24 * time.Hour` threshold). -/
def ninetyDaysNs : Int := 90 * 24 * nanosPerHour

/-- 200 days in nanoseconds. -/
def twoHundredDaysNs : Int := 200 * 24 * nanosPerHour

/-- An environment where every call succeeds: one repository `repo-a` holding
`sampleBranch` (200 days old at `now`), and deletions answer 204. -/
def env204 : Env :=
  { reposResult := .response 200 "200 OK" [⟨"repo-a"⟩]
    branchesResult := fun _ => .response 200 "200 OK" [sampleBranch]
    deleteResult := fun _ _ => .response 204 "204 No Content" ()
    parse := sampleParse
    now := twoHundredDaysNs }

/-- An environment whose repository-list fetch answers HTTP 401. -/
def env401 : Env :=
  { reposResult := .response 401 "401 Unauthorized" []
    branchesResult := fun _ => .response 200 "200 OK" []
    deleteResult := fun _ _ => .response 204 "204 No Content" ()
    parse := sampleParse
    now := 0 }

/-- An environment with two repositories where fetching the branches of
`repo-a` fails at the transport level and `repo-b` succeeds. -/
def envTwoRepos : Env :=
  { reposResult := .response 200 "200 OK" [⟨"repo-a"⟩, ⟨"repo-b"⟩]
    branchesResult := fun slug =>
      if slug = "repo-a" then .transportError "connection refused"
      else .response 200 "200 OK" [sampleBranch]
    deleteResult := fun _ _ => .response 204 "204 No Content" ()
    parse := sampleParse
    now := twoHundredDaysNs }

/-! ## Helper lemmas -/

/-- Every request issued by the per-repository loop is a GET. -/
theorem processRepos_requests_get (env : Env) (b : BitbucketClient)
    (threshold : Int) (del : Bool) (l : List Repo) :
    ((processRepos env b threshold del l).1).all
      (fun req => req.method == "GET") = true := by
  induction l with
  | nil => rfl
  | cons repo rest ih =>
    simp only [processRepos, List.all_append, Bool.and_eq_true]
    exact ⟨rfl, ih⟩

/-- The per-repository loop issues the branches GET for every repository in
the list, whatever any individual fetch returns. -/
theorem processRepos_fetches_every_repo (env : Env) (b : BitbucketClient)
    (threshold : Int) (del : Bool) (l : List Repo) :
    ∀ r ∈ l, (⟨"GET", branchesUrl b r.slug⟩ : HttpRequest) ∈
      (processRepos env b threshold del l).1 := by
  induction l with
  | nil => intro r hr; cases hr
  | cons repo rest ih =>
    intro r hr
    simp only [processRepos]
    rcases List.mem_cons.mp hr with h | h
    · subst h
      exact List.mem_append_left _ (List.mem_singleton.mpr rfl)
    · exact List.mem_append_right _ (ih r h)

/-- When fetching the branches of a listed repository fails, the loop prints
the corresponding error line (and goes on). -/
theorem processRepos_logs_fetch_errors (env : Env) (b : BitbucketClient)
    (threshold : Int) (del : Bool) (l : List Repo) :
    ∀ r ∈ l, ∀ e, (FetchBranches env b r.slug).1 = Except.error e →
      ("Error fetching branches for repo " ++ r.slug ++ ": " ++ e) ∈
        (processRepos env b threshold del l).2 := by
  induction l with
  | nil => intro r hr; cases hr
  | cons repo rest ih =>
    intro r hr e he
    simp only [processRepos]
    rcases List.mem_cons.mp hr with h | h
    · subst h
      rw [he]
      exact List.mem_cons_of_mem _ (List.mem_cons_self _ _)
    · refine List.mem_cons_of_mem _ ?_
      cases hfb : (FetchBranches env b repo.slug).1 with
      | error e2 => exact List.mem_cons_of_mem _ (ih r h e he)
      | ok branches => exact List.mem_append_right _ (ih r h e he)

/-! ## Claim theorems -/

/-- C1: for every environment, client, repository slug and branch name, if the
name is one of `main`, `master`, `develop`, then `DeleteBranch` issues no HTTP
request at all (in particular no DELETE) and instead prints the protected
notice: the guard runs before any network call. -/
theorem deleteBranch_protected_never_deletes (env : Env) (b : BitbucketClient)
    (repoSlug branchName : String)
    (h : branchName = "main" ∨ branchName = "master" ∨ branchName = "develop") :
    (DeleteBranch env b repoSlug branchName).2.1 = [] ∧
    (DeleteBranch env b repoSlug branchName).2.2 =
      ["Branch " ++ branchName ++ " is protected and cannot be deleted."] := by
  have hp : isProtectedCheck branchName = true := by
    rcases h with h | h | h <;> subst h <;> rfl
  simp [DeleteBranch, hp]

/-- C1 witness: at the protected name `main` no request is issued and the
notice is printed. -/
theorem deleteBranch_protected_never_deletes_witness :
    (DeleteBranch env204 sampleClient "repo-a" "main").2.1 = [] ∧
    (DeleteBranch env204 sampleClient "repo-a" "main").2.2 =
      ["Branch " ++ "main" ++ " is protected and cannot be deleted."] :=
  deleteBranch_protected_never_deletes env204 sampleClient "repo-a" "main" (Or.inl rfl)

/-- C5: a branch whose commit timestamp fails to parse is reported not stale
with age 0, and `CheckIfStale` returns normally (no error value exists in its
type, so the run continues). -/
theorem checkIfStale_parse_failure (parse : String → Option Int) (now : Int)
    (branch : Branch) (threshold : Int)
    (h : parse branch.targetDate = none) :
    CheckIfStale parse now branch threshold = (false, 0) := by
  unfold CheckIfStale
  rw [h]

/-- C5 witness: the malformed timestamp string evaluates to `(false, 0)`. -/
theorem checkIfStale_parse_failure_witness :
    CheckIfStale sampleParse 0 malformedBranch ninetyDaysNs = (false, 0) :=
  checkIfStale_parse_failure sampleParse 0 malformedBranch ninetyDaysNs rfl

/-- C6: the protected-branch check of `DeleteBranch` accepts exactly the names
`main`, `master` and `develop`, by case-sensitive string equality. -/
theorem isProtectedCheck_iff (name : String) :
    isProtectedCheck name = true ↔
      (name = "main" ∨ name = "master" ∨ name = "develop") := by
  simp [isProtectedCheck, protectedBranches]

/-- C4: at the failing input (commit exactly 200 days before `now`, 90-day
threshold) `CheckIfStale` classifies the branch stale but returns an age of
200 hours — `time.Duration(daysSinceCommit) * time.Hour` reinterprets the
day count as hours — not the exact `now - T` of 4800 hours the claim states. -/
theorem checkIfStale_age_not_exact :
    (CheckIfStale sampleParse twoHundredDaysNs sampleBranch ninetyDaysNs).2 =
      200 * nanosPerHour ∧
    twoHundredDaysNs - 0 = 4800 * nanosPerHour ∧
    (200 * nanosPerHour : Int) ≠ 4800 * nanosPerHour :=
  ⟨by decide, by decide, by decide⟩

/-- C3: the orchestrator `ListStaleBranches` never issues a DELETE request —
every request it makes is a GET, for every environment, threshold and even
with the delete flag set.  The `DeleteBranch` call in the source is commented
out and replaced by the placeholder print `Blaaa`, contradicting the
function's own doc comment. -/
theorem listStaleBranches_never_deletes (env : Env) (b : BitbucketClient)
    (threshold : Int) (del : Bool) :
    ((ListStaleBranches env b threshold del).1).all
      (fun req => req.method == "GET") = true := by
  unfold ListStaleBranches
  cases hfr : (FetchRepositories env b).1 with
  | error e => rfl
  | ok repos =>
    simp only [List.all_append, Bool.and_eq_true]
    exact ⟨rfl, processRepos_requests_get env b threshold del repos⟩

/-- C7: when the repository list is fetched successfully, every listed
repository has its branches fetched (the GET for its branches endpoint is
among the issued requests), and any repository whose branch fetch fails gets
its error logged — failures are isolated, later repositories still run. -/
theorem listStaleBranches_isolates_branch_failures (env : Env)
    (b : BitbucketClient) (threshold : Int) (del : Bool) (st : String)
    (repos : List Repo) (r : Repo)
    (h : env.reposResult = ApiResult.response 200 st repos) (hr : r ∈ repos) :
    (⟨"GET", branchesUrl b r.slug⟩ : HttpRequest) ∈
      (ListStaleBranches env b threshold del).1 ∧
    ∀ e, (FetchBranches env b r.slug).1 = Except.error e →
      ("Error fetching branches for repo " ++ r.slug ++ ": " ++ e) ∈
        (ListStaleBranches env b threshold del).2 := by
  have hok : (FetchRepositories env b).1 = Except.ok repos := by
    simp [FetchRepositories, h]
  unfold ListStaleBranches
  rw [hok]
  exact ⟨List.mem_append_right _
      (processRepos_fetches_every_repo env b threshold del repos r hr),
    fun e he => processRepos_logs_fetch_errors env b threshold del repos r hr e he⟩

/-- C7 witness: with two repositories where the branch fetch of `repo-a`
fails at the transport level, the branches of `repo-b` are still requested,
and the `repo-a` failure is logged. -/
theorem listStaleBranches_isolates_branch_failures_witness :
    (⟨"GET", branchesUrl sampleClient "repo-b"⟩ : HttpRequest) ∈
      (ListStaleBranches envTwoRepos sampleClient ninetyDaysNs false).1 ∧
    ("Error fetching branches for repo " ++ "repo-a" ++ ": " ++
        "connection refused") ∈
      (ListStaleBranches envTwoRepos sampleClient ninetyDaysNs false).2 :=
  ⟨(listStaleBranches_isolates_branch_failures envTwoRepos sampleClient
      ninetyDaysNs false "200 OK" [⟨"repo-a"⟩, ⟨"repo-b"⟩] ⟨"repo-b"⟩ rfl
      (by decide)).1,
   (listStaleBranches_isolates_branch_failures envTwoRepos sampleClient
      ninetyDaysNs false "200 OK" [⟨"repo-a"⟩, ⟨"repo-b"⟩] ⟨"repo-a"⟩ rfl
      (by decide)).2 "connection refused" rfl⟩

/-- C8: if the repository-list fetch fails (transport error or non-200
status), the whole run stops after printing the error: the only request ever
issued is the single repositories GET (no branch is fetched, evaluated or
deleted) and the only console line is the error report. -/
theorem listStaleBranches_aborts_on_repo_fetch_failure (env : Env)
    (b : BitbucketClient) (threshold : Int) (del : Bool) (msg : String)
    (h : (FetchRepositories env b).1 = Except.error msg) :
    ListStaleBranches env b threshold del =
      ([⟨"GET", reposUrl b⟩], ["Error fetching repositories: " ++ msg]) := by
  unfold ListStaleBranches
  rw [h]
  rfl

/-- C8 witness: a 401 on the repository list terminates the run with just the
error line and no further request. -/
theorem listStaleBranches_aborts_on_repo_fetch_failure_witness :
    ListStaleBranches env401 sampleClient ninetyDaysNs false =
      ([⟨"GET", reposUrl sampleClient⟩],
       ["Error fetching repositories: " ++
         ("failed to fetch repositories: " ++ "401 Unauthorized")]) :=
  listStaleBranches_aborts_on_repo_fetch_failure env401 sampleClient
    ninetyDaysNs false ("failed to fetch repositories: " ++ "401 Unauthorized") rfl

/-- C9: for a non-protected branch, `DeleteBranch` succeeds exactly when the
DELETE response has status 204; any other status and any transport failure
yields an error value. -/
theorem deleteBranch_ok_iff_204 (env : Env) (b : BitbucketClient)
    (repoSlug branchName : String)
    (hp : isProtectedCheck branchName = false) :
    (DeleteBranch env b repoSlug branchName).1 = Except.ok () ↔
      ∃ statusText, env.deleteResult repoSlug branchName =
        ApiResult.response 204 statusText () := by
  unfold DeleteBranch
  rw [hp]
  show (match env.deleteResult repoSlug branchName with
    | .transportError e => (Except.error e, _, _)
    | .response status statusText _ => _).1 = Except.ok () ↔ _
  cases hd : env.deleteResult repoSlug branchName with
  | transportError e => simp
  | response status statusText body =>
    cases body
    by_cases h204 : status = 204
    · subst h204
      simp
    · simp [h204]

/-- C9 witness: deleting the non-protected `feature-x` with a 204 response
succeeds. -/
theorem deleteBranch_ok_iff_204_witness :
    (DeleteBranch env204 sampleClient "repo-a" "feature-x").1 = Except.ok () :=
  (deleteBranch_ok_iff_204 env204 sampleClient "repo-a" "feature-x" rfl).mpr
    ⟨"204 No Content", rfl⟩

/-- C10: for a protected branch name, `DeleteBranch` returns the same value
as a successful deletion (`nil` error, `Except.ok ()`) while issuing no HTTP
request at all, so callers cannot distinguish the protected skip from a
completed deletion through the return value. -/
theorem deleteBranch_protected_indistinguishable (env : Env)
    (b : BitbucketClient) (repoSlug branchName : String)
    (hp : isProtectedCheck branchName = true) :
    (DeleteBranch env b repoSlug branchName).1 = Except.ok () ∧
    (DeleteBranch env b repoSlug branchName).2.1 = [] := by
  simp [DeleteBranch, hp]

/-- C10 witness: at the protected name `develop` the result is `ok` and no
request is issued. -/
theorem deleteBranch_protected_indistinguishable_witness :
    (DeleteBranch env204 sampleClient "repo-a" "develop").1 = Except.ok () ∧
    (DeleteBranch env204 sampleClient "repo-a" "develop").2.1 = [] :=
  deleteBranch_protected_indistinguishable env204 sampleClient "repo-a" "develop" rfl
